import Mathlib

/-!
Verification of the combat-simulation core of the `fps-game` repository.

Numbers are modelled as rationals (`ℚ`) for timers, health and distances, and
as naturals (`ℕ`) for ammunition counts.  Geometry (positions, raycasts,
meshes) is abstracted: where the source computes a distance from two
positions, the embedded update function takes that distance as an input.
Rendering, audio and UI calls are side effects outside the modelled state and
are dropped.
-/

namespace FPS

set_option autoImplicit false

/-- Enemy AI states, from `EnemyState` in `src/types/index.ts`. -/
inductive EnemyState where
  | IDLE
  | PATROL
  | ALERT
  | CHASE
  | ATTACK
  | DEAD
deriving DecidableEq, Repr

/-- The gameplay-relevant mutable fields of `Enemy` (`src/entities/Enemy.ts`),
together with the per-type stats copied from the config in the constructor.
Mesh, patrol waypoints and facing are visual/positional and omitted; the
distance to the player, which the source recomputes from positions each tick,
is an input of `enemyUpdate`. -/
structure EnemyData where
  health : ℚ
  maxHealth : ℚ
  speed : ℚ
  damage : ℚ
  attackRange : ℚ
  detectionRange : ℚ
  attackCooldown : ℚ
  state : EnemyState
  attackTimer : ℚ
  stateTimer : ℚ
  isDying : Bool
  deathTimer : ℚ
deriving DecidableEq, Repr

/-- `Enemy.setState` (Enemy.ts lines 302-312): on an actual change, install the
new state and reset the state timer. -/
def setState (e : EnemyData) (newState : EnemyState) : EnemyData :=
  if e.state ≠ newState then
    { e with state := newState, stateTimer := 0 }
  else e

/-- `Enemy.die` (Enemy.ts lines 344-359): idempotent; marks the enemy as dying,
zeroes the death timer and forces the `DEAD` state.  Score, sound and particle
side effects are dropped. -/
def die (e : EnemyData) : EnemyData :=
  if e.isDying then e
  else { e with isDying := true, deathTimer := 0, state := EnemyState.DEAD }

/-- `Enemy.takeDamage` (Enemy.ts lines 314-331): no-op while dying; otherwise
subtracts the amount from health with no clamping, switches an idle or
patrolling enemy to `CHASE`, and dies once health is at or below zero. -/
def enemyTakeDamage (e : EnemyData) (amount : ℚ) : EnemyData :=
  if e.isDying then e
  else
    let e1 := { e with health := e.health - amount }
    let e2 :=
      if e1.state = EnemyState.IDLE ∨ e1.state = EnemyState.PATROL then
        setState e1 EnemyState.CHASE
      else e1
    if e2.health ≤ 0 then die e2 else e2

/-- `Enemy.updateIdle` (Enemy.ts lines 131-142). -/
def updateIdle (e : EnemyData) (distance : ℚ) : EnemyData :=
  if distance < e.detectionRange then setState e EnemyState.ALERT
  else if e.stateTimer > 2 then setState e EnemyState.PATROL
  else e

/-- `Enemy.updatePatrol` (Enemy.ts lines 144-162); waypoint movement and the
patrol-index advance touch only position data and are omitted. -/
def updatePatrol (e : EnemyData) (distance : ℚ) : EnemyData :=
  if distance < e.detectionRange then setState e EnemyState.ALERT
  else e

/-- `Enemy.updateAlert` (Enemy.ts lines 164-169). -/
def updateAlert (e : EnemyData) : EnemyData :=
  if e.stateTimer > 1/2 then setState e EnemyState.CHASE
  else e

/-- `Enemy.updateChase` (Enemy.ts lines 171-186); the movement step is
positional and omitted. -/
def updateChase (e : EnemyData) (distance : ℚ) : EnemyData :=
  if distance < e.attackRange then setState e EnemyState.ATTACK
  else if distance > e.detectionRange * (3/2) then setState e EnemyState.PATROL
  else e

/-- `Enemy.updateAttack` (Enemy.ts lines 188-200); `performAttack` damages the
player (not part of the enemy's own state) and resets the cooldown. -/
def updateAttack (e : EnemyData) (distance : ℚ) : EnemyData :=
  if distance > e.attackRange * (12/10) then setState e EnemyState.CHASE
  else if e.attackTimer ≤ 0 then { e with attackTimer := e.attackCooldown }
  else e

/-- The timer bookkeeping at the top of `Enemy.update` (Enemy.ts lines
93-99): the attack cooldown counts down while positive and the state timer
accumulates. -/
def tickTimers (e : EnemyData) (delta : ℚ) : EnemyData :=
  { e with
    attackTimer := if e.attackTimer > 0 then e.attackTimer - delta else e.attackTimer,
    stateTimer := e.stateTimer + delta }

/-- `Enemy.update` (Enemy.ts lines 87-129): while dying only the death timer
advances; otherwise the cooldown and state timers tick and the state machine
dispatches on the current state.  `distance` is the distance to the player
that the source computes from the two positions. -/
def enemyUpdate (e : EnemyData) (delta distance : ℚ) : EnemyData :=
  if e.isDying then { e with deathTimer := e.deathTimer + delta }
  else
    let e1 := tickTimers e delta
    match e1.state with
    | EnemyState.IDLE => updateIdle e1 distance
    | EnemyState.PATROL => updatePatrol e1 distance
    | EnemyState.ALERT => updateAlert e1
    | EnemyState.CHASE => updateChase e1 distance
    | EnemyState.ATTACK => updateAttack e1 distance
    | EnemyState.DEAD => e1

/-- The transition edges listed in spec §4.1 (including any non-DEAD state to
DEAD on death), as an explicit edge set to compare the code against. -/
def specTransitionEdge : EnemyState → EnemyState → Bool
  | EnemyState.IDLE, EnemyState.ALERT => true
  | EnemyState.IDLE, EnemyState.PATROL => true
  | EnemyState.PATROL, EnemyState.ALERT => true
  | EnemyState.ALERT, EnemyState.CHASE => true
  | EnemyState.CHASE, EnemyState.ATTACK => true
  | EnemyState.CHASE, EnemyState.PATROL => true
  | EnemyState.ATTACK, EnemyState.CHASE => true
  | EnemyState.DEAD, _ => false
  | _, EnemyState.DEAD => true
  | _, _ => false

/-- The edge set the code actually uses: the §4.1 edges plus the two
damage-reaction edges of `Enemy.takeDamage` (hit while idle or patrolling
switches straight to CHASE). -/
def codeTransitionEdge (a b : EnemyState) : Bool :=
  specTransitionEdge a b ||
    (a = EnemyState.IDLE && b = EnemyState.CHASE) ||
    (a = EnemyState.PATROL && b = EnemyState.CHASE)

/-- The gameplay-relevant mutable fields of `Player`
(`src/entities/Player.ts`, shown in Weapon.ts lines 383-846).  Movement,
camera and weapon-system fields are modelled separately or omitted. -/
structure PlayerData where
  health : ℚ
  maxHealth : ℚ
  invincibilityTimer : ℚ
  shakeIntensity : ℚ
deriving DecidableEq, Repr

/-- `Player.invincibilityDuration` (line 419): half a second of invincibility
after each successful hit. -/
def invincibilityDuration : ℚ := 1/2

/-- `Player.takeDamage` (lines 741-762): no-op while the invincibility timer
runs or when health is already spent; otherwise clamps health at zero from
below, arms the invincibility window and the screen shake. -/
def playerTakeDamage (p : PlayerData) (amount : ℚ) : PlayerData :=
  if 0 < p.invincibilityTimer then p
  else if p.health ≤ 0 then p
  else
    { p with
      health := max 0 (p.health - amount),
      invincibilityTimer := invincibilityDuration,
      shakeIntensity := 3/10 }

/-- The invincibility-countdown step of `Player.update` (lines 485-487). -/
def playerUpdateInvincibility (p : PlayerData) (delta : ℚ) : PlayerData :=
  if 0 < p.invincibilityTimer then
    { p with invincibilityTimer := p.invincibilityTimer - delta }
  else p

/-- One entry of `WeaponSystem.weapons` (`WeaponData` in Weapon.ts lines
851-868).  Ammunition is a natural number; the knife's `Infinity` magazine and
reserve are never consulted by the modelled operations (its `shoot` path is
`knifeAttack` and its `reload` returns immediately on the type check), so
`isKnife` carries the `currentWeaponType === WeaponType.KNIFE` test instead.
For `infiniteAmmo` weapons the reserve fields are likewise never read. -/
structure WeaponSlot where
  damage : ℚ
  fireRate : ℚ
  magazineSize : ℕ
  currentAmmo : ℕ
  reserveAmmo : ℕ
  maxReserveAmmo : ℕ
  reloadTime : ℚ
  infiniteAmmo : Bool
  isTemporary : Bool
  isKnife : Bool
deriving DecidableEq, Repr

/-- The ammunition/timing state of `WeaponSystem` (Weapon.ts lines 870-907)
restricted to the currently equipped slot.  Aiming is the continuous 0..1
blend; visual sway/kickback fields are omitted. -/
structure WeaponSys where
  weapon : WeaponSlot
  fireTimer : ℚ
  isReloading : Bool
  reloadTimer : ℚ
  isKnifeSwinging : Bool
  knifeSwingTimer : ℚ
  isAiming : Bool
  aimTransition : ℚ
  isZombieMode : Bool
deriving DecidableEq, Repr

/-- `WeaponSystem.equipWeapon` (Weapon.ts lines 1418-1444): installs the new
slot, clears the reload flag and timer, and resets aiming.  The fire timer and
the knife-swing state are left untouched by the source. -/
def equipWeapon (s : WeaponSys) (w : WeaponSlot) : WeaponSys :=
  { s with
    weapon := w,
    isReloading := false,
    reloadTimer := 0,
    isAiming := false,
    aimTransition := 0 }

/-- `WeaponSystem.reload` (Weapon.ts lines 1819-1841): no-op when already
reloading, on the knife, with a full magazine, or with no reserve on a
finite-ammo weapon; otherwise starts the reload timer. -/
def reload (s : WeaponSys) : WeaponSys :=
  if s.isReloading then s
  else if s.weapon.isKnife then s
  else if s.weapon.currentAmmo = s.weapon.magazineSize then s
  else if ¬s.weapon.infiniteAmmo ∧ s.weapon.reserveAmmo = 0 then s
  else { s with isReloading := true, reloadTimer := s.weapon.reloadTime }

/-- `WeaponSystem.completeReload` (Weapon.ts lines 1843-1860): infinite-ammo
weapons refill to full; otherwise `min(needed, reserve)` moves from reserve to
magazine. -/
def completeReload (s : WeaponSys) : WeaponSys :=
  let w := s.weapon
  let ammoNeeded := w.magazineSize - w.currentAmmo
  let w2 :=
    if w.infiniteAmmo then { w with currentAmmo := w.magazineSize }
    else
      let ammoToAdd := min ammoNeeded w.reserveAmmo
      { w with
        currentAmmo := w.currentAmmo + ammoToAdd,
        reserveAmmo := w.reserveAmmo - ammoToAdd }
  { s with weapon := w2, isReloading := false }

/-- `WeaponSystem.addAmmo` (Weapon.ts lines 1862-1876) for the equipped slot:
no-op on infinite-ammo weapons and on temporary (mystery-box) weapons in
zombie mode; otherwise adds to reserve, capped at `maxReserveAmmo`. -/
def addAmmo (s : WeaponSys) (amount : ℕ) : WeaponSys :=
  if s.weapon.infiniteAmmo then s
  else if s.isZombieMode ∧ s.weapon.isTemporary then s
  else
    { s with weapon := { s.weapon with
        reserveAmmo := min s.weapon.maxReserveAmmo (s.weapon.reserveAmmo + amount) } }

/-- The duration of a knife swing, from `knifeAttack` (Weapon.ts line 1670). -/
def knifeSwingDuration : ℚ := 3/10

/-- `WeaponSystem.knifeAttack` (Weapon.ts lines 1665-1720): starts the swing
and the fire cooldown; the single melee hit resolution acts on enemies, not on
this state. -/
def knifeAttack (s : WeaponSys) : WeaponSys :=
  if s.isKnifeSwinging then s
  else
    { s with
      isKnifeSwinging := true,
      knifeSwingTimer := knifeSwingDuration,
      fireTimer := s.weapon.fireRate }

/-- `WeaponSystem.shoot` (Weapon.ts lines 1592-1663): gated by the fire timer,
the reload flag and the swing flag; the knife dispatches to `knifeAttack`; an
empty magazine plays the empty cue and calls `reload` instead of firing;
otherwise one round leaves the magazine and the cooldown restarts.  The pellet
raycasts hit enemies, not this state. -/
def shoot (s : WeaponSys) : WeaponSys :=
  if 0 < s.fireTimer then s
  else if s.isReloading then s
  else if s.isKnifeSwinging then s
  else if s.weapon.isKnife then knifeAttack s
  else if s.weapon.currentAmmo = 0 then reload s
  else
    { s with
      weapon := { s.weapon with currentAmmo := s.weapon.currentAmmo - 1 },
      fireTimer := s.weapon.fireRate }

/-- The operations of claim C3 on a weapon slot. -/
inductive WeaponOp where
  | shootOp
  | reloadOp
  | completeReloadOp
  | addAmmoOp (amount : ℕ)
deriving DecidableEq, Repr

/-- Dispatch one C3 operation. -/
def applyWeaponOp (s : WeaponSys) : WeaponOp → WeaponSys
  | WeaponOp.shootOp => shoot s
  | WeaponOp.reloadOp => reload s
  | WeaponOp.completeReloadOp => completeReload s
  | WeaponOp.addAmmoOp n => addAmmo s n

/-- `GAME_CONSTANTS.ROCKET` (src/types/index.ts lines 298-303). -/
def rocketExplosionRadius : ℚ := 8

/-- `GAME_CONSTANTS.ROCKET.EXPLOSION_DAMAGE`. -/
def rocketExplosionDamage : ℚ := 120

/-- The per-target damage computation of `Rocket.explode` (part_005 lines
153-167): within the blast radius the damage factor falls off linearly and the
product is floored; the damage is applied only when positive.  The returned
number is the amount passed to `takeDamage`, `0` meaning no call. -/
def explosionDamageApplied (radius maxDamage distance : ℚ) : ℤ :=
  if distance ≤ radius then
    let damage := Int.floor (maxDamage * (1 - distance / radius))
    if 0 < damage then damage else 0
  else 0

/-- `GAME_CONSTANTS.ENEMY.BOSS` stats used by the phase machine. -/
def bossBaseSpeed : ℚ := 4
def bossBaseDamage : ℚ := 25
def bossBaseAttackCooldown : ℚ := 2

/-- The phase-escalation state of `BossEnemy`
(src/entities/EnemyTypes/BossEnemy.ts, shown in FastZombieEnemy.ts lines
135-617), restricted to the fields the phase machine reads and writes. -/
structure BossData where
  phase : ℕ
  phaseTransitioning : Bool
  phaseTransitionTimer : ℚ
  health : ℚ
  maxHealth : ℚ
  speed : ℚ
  damage : ℚ
  attackCooldown : ℚ
  specialAttackCooldown : ℚ
deriving DecidableEq, Repr

/-- `BossEnemy.startPhaseTransition` (lines 282-301): installs the phase,
locks the 2-second transition window and applies the per-phase stat boosts. -/
def startPhaseTransition (b : BossData) (newPhase : ℕ) : BossData :=
  let b1 := { b with
    phase := newPhase,
    phaseTransitioning := true,
    phaseTransitionTimer := 2 }
  if newPhase = 2 then
    { b1 with
      speed := bossBaseSpeed * (13/10),
      attackCooldown := bossBaseAttackCooldown * (8/10),
      specialAttackCooldown := 4 }
  else if newPhase = 3 then
    { b1 with
      speed := bossBaseSpeed * (15/10),
      damage := bossBaseDamage * (15/10),
      attackCooldown := bossBaseAttackCooldown * (6/10),
      specialAttackCooldown := 3 }
  else b1

/-- `BossEnemy.checkPhaseChange` (lines 272-280): at or below 33% health any
phase other than 3 escalates to phase 3; otherwise at or below 66% health
phase 1 escalates to phase 2. -/
def checkPhaseChange (b : BossData) : BossData :=
  let healthPercent := b.health / b.maxHealth
  if healthPercent ≤ 33/100 ∧ b.phase ≠ 3 then startPhaseTransition b 3
  else if healthPercent ≤ 66/100 ∧ b.phase = 1 then startPhaseTransition b 2
  else b

/-- `BossEnemy.updatePhaseTransition` (lines 303-320), visual pulsing
omitted. -/
def updatePhaseTransition (b : BossData) (delta : ℚ) : BossData :=
  let b1 := { b with phaseTransitionTimer := b.phaseTransitionTimer - delta }
  if b1.phaseTransitionTimer ≤ 0 then { b1 with phaseTransitioning := false }
  else b1

/-- The phase-relevant skeleton of `BossEnemy.update` (lines 248-270): during
a transition only the lock timer runs, and `checkPhaseChange` is not
consulted; otherwise the phase check runs first.  The special-attack timer and
the inherited movement update do not touch the phase fields. -/
def bossUpdatePhase (b : BossData) (delta : ℚ) : BossData :=
  if b.phaseTransitioning then updatePhaseTransition b delta
  else checkPhaseChange b

/-- `LevelManager.maxZombiesCap` (part_003 line 37): the hard cap on
simultaneous zombies in survival mode. -/
def maxZombiesCap : ℕ := 10

/-- The wave population target of `LevelManager.spawnZombieWave` (part_003
line 743): `min(hardCap, 5 + floor(wave / 2))`. -/
def waveZombieTarget (endlessWaveCount : ℕ) : ℕ :=
  min maxZombiesCap (5 + endlessWaveCount / 2)

/-- The spawn deficit of `spawnZombieWave` (line 745):
`max(0, target - currentZombies)`, here as truncated subtraction. -/
def zombiesToSpawn (target currentZombies : ℕ) : ℕ :=
  target - currentZombies

/-- One staggered spawn callback of `spawnZombieWave` (lines 753-790) as its
effect on the live-enemy count: the double cap check drops the spawn when the
population is already at the cap. -/
def staggeredWaveSpawn (count : ℕ) : ℕ :=
  if maxZombiesCap ≤ count then count else count + 1

/-- `LevelManager.spawnSingleZombie` (part_003 lines 804-836) as its effect on
the live-enemy count: guarded by the hard cap. -/
def spawnSingleZombie (count : ℕ) : ℕ :=
  if maxZombiesCap ≤ count then count else count + 1

/-- `LevelManager.checkZombieRespawn` (part_003 lines 794-802): the trickle
respawn fires only below half the cap. -/
def checkZombieRespawn (count : ℕ) : ℕ :=
  if (count : ℚ) < (maxZombiesCap : ℚ) * (1/2) then spawnSingleZombie count
  else count

/-- The survival-mode events that change the live-enemy count. -/
inductive SpawnEvent where
  | waveSpawn
  | trickle
  | enemyRemoved
deriving DecidableEq, Repr

/-- Effect of one survival-mode event on the live-enemy count. -/
def applySpawnEvent (count : ℕ) : SpawnEvent → ℕ
  | SpawnEvent.waveSpawn => staggeredWaveSpawn count
  | SpawnEvent.trickle => checkZombieRespawn count
  | SpawnEvent.enemyRemoved => count - 1

/-- The health scaling multiplier of `spawnZombieWave` (part_003 line 748):
+10% per wave, unbounded. -/
def healthMultiplier (wave : ℕ) : ℚ :=
  1 + ((wave : ℚ) - 1) * (1/10)

/-- The damage scaling multiplier (line 749): +5% per wave, unbounded. -/
def damageMultiplier (wave : ℕ) : ℚ :=
  1 + ((wave : ℚ) - 1) * (5/100)

/-- The speed scaling multiplier (lines 750 and 818): +8% per wave with the
additive part capped at 1, so the multiplier caps at 2. -/
def speedMultiplier (wave : ℕ) : ℚ :=
  1 + min 1 (((wave : ℚ) - 1) * (8/100))

/-- Stats of a spawned regular zombie. -/
structure ZombieStats where
  health : ℚ
  speed : ℚ
  damage : ℚ
deriving DecidableEq, Repr

/-- `GAME_CONSTANTS.ENEMY.ZOMBIE` base stats (src/types/index.ts lines
329-336). -/
def zombieBaseHealth : ℚ := 40
def zombieBaseSpeed : ℚ := 5/2
def zombieBaseDamage : ℚ := 15

/-- The stats of a regular zombie spawned by `spawnZombieWave` at the given
wave: the `ZombieEnemy` constructor (FastZombieEnemy.ts lines 633-642)
receives only the speed multiplier; health and damage come from the base
constants unscaled. -/
def spawnedZombieStats (wave : ℕ) : ZombieStats :=
  { health := zombieBaseHealth,
    speed := zombieBaseSpeed * speedMultiplier wave,
    damage := zombieBaseDamage }

/-- A `BasicEnemy` as spawned (`GAME_CONSTANTS.ENEMY.BASIC`, types/index.ts
lines 305-312): health 30, fresh timers, idle. -/
def basicEnemySpawn : EnemyData :=
  { health := 30, maxHealth := 30, speed := 3, damage := 10, attackRange := 2,
    detectionRange := 20, attackCooldown := 3/2, state := EnemyState.IDLE,
    attackTimer := 0, stateTimer := 0, isDying := false, deathTimer := 0 }

/-- The player as spawned (`GAME_CONSTANTS.PLAYER.DEFAULT_HEALTH`, types
lines 197-203). -/
def playerSpawn : PlayerData :=
  { health := 100, maxHealth := 100, invincibilityTimer := 0, shakeIntensity := 0 }

/-! ### Helper lemmas about the enemy embedding -/

theorem setState_state (e : EnemyData) (s : EnemyState) : (setState e s).state = s := by
  unfold setState
  split
  · rfl
  · next h => exact not_not.mp h

theorem setState_health (e : EnemyData) (s : EnemyState) :
    (setState e s).health = e.health := by
  unfold setState
  split <;> rfl

theorem setState_maxHealth (e : EnemyData) (s : EnemyState) :
    (setState e s).maxHealth = e.maxHealth := by
  unfold setState
  split <;> rfl

theorem die_health (e : EnemyData) : (die e).health = e.health := by
  unfold die
  split <;> rfl

theorem die_maxHealth (e : EnemyData) : (die e).maxHealth = e.maxHealth := by
  unfold die
  split <;> rfl

/-- While not dying, `Enemy.takeDamage` subtracts the full amount, with no
clamping at zero. -/
theorem enemyTakeDamage_health (e : EnemyData) (a : ℚ) (h : e.isDying = false) :
    (enemyTakeDamage e a).health = e.health - a := by
  unfold enemyTakeDamage
  simp only [h, Bool.false_eq_true, if_false]
  split <;> split <;> simp [die_health, setState_health]

theorem enemyTakeDamage_of_dying (e : EnemyData) (a : ℚ) (h : e.isDying = true) :
    enemyTakeDamage e a = e := by
  unfold enemyTakeDamage
  simp [h]

theorem enemyTakeDamage_maxHealth (e : EnemyData) (a : ℚ) :
    (enemyTakeDamage e a).maxHealth = e.maxHealth := by
  by_cases hd : e.isDying
  · rw [enemyTakeDamage_of_dying e a hd]
  · have h : e.isDying = false := by simpa using hd
    unfold enemyTakeDamage
    simp only [h, Bool.false_eq_true, if_false]
    split <;> split <;> simp [die_maxHealth, setState_maxHealth]

theorem enemyTakeDamage_health_le (e : EnemyData) (a : ℚ) (ha : 0 ≤ a) :
    (enemyTakeDamage e a).health ≤ e.health := by
  by_cases h : e.isDying
  · rw [enemyTakeDamage_of_dying e a h]
  · rw [enemyTakeDamage_health e a (by simpa using h)]
    linarith

theorem playerTakeDamage_health_le (p : PlayerData) (a : ℚ) (ha : 0 ≤ a) :
    (playerTakeDamage p a).health ≤ max p.health 0 := by
  unfold playerTakeDamage
  split
  · exact le_max_left _ _
  · split
    · exact le_max_left _ _
    · next h =>
      refine max_le ?_ ?_
      · exact le_max_of_le_left (by linarith)
      · exact le_max_of_le_left (by linarith)

theorem playerTakeDamage_maxHealth (p : PlayerData) (a : ℚ) :
    (playerTakeDamage p a).maxHealth = p.maxHealth := by
  unfold playerTakeDamage
  split
  · rfl
  · split <;> rfl

theorem playerTakeDamage_health_nonneg (p : PlayerData) (a : ℚ) (hp : 0 ≤ p.health) :
    0 ≤ (playerTakeDamage p a).health := by
  unfold playerTakeDamage
  split
  · exact hp
  · split
    · exact hp
    · exact le_max_left _ _

theorem enemy_fold_health_le (ds : List ℚ) (e : EnemyData)
    (hds : ∀ d ∈ ds, 0 ≤ d) :
    (ds.foldl enemyTakeDamage e).health ≤ e.health ∧
    (ds.foldl enemyTakeDamage e).maxHealth = e.maxHealth := by
  induction ds generalizing e with
  | nil => exact ⟨le_rfl, rfl⟩
  | cons d ds ih =>
    have hd : (0:ℚ) ≤ d := hds d (List.mem_cons_self d ds)
    have hrest : ∀ x ∈ ds, (0:ℚ) ≤ x := fun x hx => hds x (List.mem_cons_of_mem d hx)
    have h1 := ih (enemyTakeDamage e d) hrest
    rw [List.foldl_cons]
    exact ⟨le_trans h1.1 (enemyTakeDamage_health_le e d hd),
      h1.2.trans (enemyTakeDamage_maxHealth e d)⟩

theorem player_fold_health_le (ds : List ℚ) (p : PlayerData)
    (hds : ∀ d ∈ ds, 0 ≤ d) (hp : 0 ≤ p.health) :
    (ds.foldl playerTakeDamage p).health ≤ p.health ∧
    (ds.foldl playerTakeDamage p).maxHealth = p.maxHealth := by
  induction ds generalizing p with
  | nil => exact ⟨le_rfl, rfl⟩
  | cons d ds ih =>
    have hd : (0:ℚ) ≤ d := hds d (List.mem_cons_self d ds)
    have hrest : ∀ x ∈ ds, (0:ℚ) ≤ x := fun x hx => hds x (List.mem_cons_of_mem d hx)
    have hstep : (playerTakeDamage p d).health ≤ p.health := by
      have := playerTakeDamage_health_le p d hd
      rwa [max_eq_left hp] at this
    have h1 := ih (playerTakeDamage p d) hrest (playerTakeDamage_health_nonneg p d hp)
    rw [List.foldl_cons]
    exact ⟨le_trans h1.1 hstep, h1.2.trans (playerTakeDamage_maxHealth p d)⟩

/-! ### Claim C1 -/

/-- C1, corrected.  `Enemy.takeDamage` does not clamp health at zero: while
not dying it subtracts the amount in full (health can go negative on a
killing blow), and once dying it is a no-op.  `Player.takeDamage`, when a hit
lands (no invincibility, not already dead), does clamp: the new health is
`max 0 (health - amount)`.  For both kinds of entity health never increases
under `takeDamage`, so it never exceeds `maxHealth` (which `takeDamage`
preserves) if it started at or below it. -/
theorem c1_take_damage_clamping :
    (∀ (e : EnemyData) (a : ℚ), e.isDying = false →
        (enemyTakeDamage e a).health = e.health - a)
  ∧ (∀ (e : EnemyData) (a : ℚ), e.isDying = true → enemyTakeDamage e a = e)
  ∧ (∀ (p : PlayerData) (a : ℚ), p.invincibilityTimer ≤ 0 → 0 < p.health →
        (playerTakeDamage p a).health = max 0 (p.health - a))
  ∧ (∀ (e : EnemyData) (ds : List ℚ), (∀ d ∈ ds, 0 ≤ d) →
        e.health ≤ e.maxHealth →
        (ds.foldl enemyTakeDamage e).health ≤ (ds.foldl enemyTakeDamage e).maxHealth)
  ∧ (∀ (p : PlayerData) (ds : List ℚ), (∀ d ∈ ds, 0 ≤ d) →
        0 ≤ p.health → p.health ≤ p.maxHealth →
        (ds.foldl playerTakeDamage p).health ≤ (ds.foldl playerTakeDamage p).maxHealth) := by
  refine ⟨enemyTakeDamage_health, enemyTakeDamage_of_dying, ?_, ?_, ?_⟩
  · intro p a hinv hpos
    unfold playerTakeDamage
    rw [if_neg (by linarith), if_neg (by linarith)]
  · intro e ds hds he
    have h := enemy_fold_health_le ds e hds
    rw [h.2]
    exact le_trans h.1 he
  · intro p ds hds hp hmax
    have h := player_fold_health_le ds p hds hp
    rw [h.2]
    exact le_trans h.1 hmax

/-- Witness for C1 at concrete inputs: a fresh basic enemy hit for 10, the
spawned player hit for 30, and a 25-then-10 damage sequence. -/
theorem c1_take_damage_clamping_witness :
    (basicEnemySpawn.isDying = false ∧
      (enemyTakeDamage basicEnemySpawn 10).health = basicEnemySpawn.health - 10) ∧
    ((playerSpawn.invincibilityTimer ≤ 0 ∧ (0:ℚ) < playerSpawn.health) ∧
      (playerTakeDamage playerSpawn 30).health = max 0 (playerSpawn.health - 30)) ∧
    ((∀ d ∈ [(25:ℚ), 10], 0 ≤ d) ∧
      basicEnemySpawn.health ≤ basicEnemySpawn.maxHealth ∧
      ([(25:ℚ), 10].foldl enemyTakeDamage basicEnemySpawn).health ≤
        ([(25:ℚ), 10].foldl enemyTakeDamage basicEnemySpawn).maxHealth) := by
  have hmem : ∀ d ∈ [(25:ℚ), 10], 0 ≤ d := by
    intro d hd
    fin_cases hd <;> norm_num
  exact ⟨⟨rfl, c1_take_damage_clamping.1 basicEnemySpawn 10 rfl⟩,
    ⟨⟨by norm_num [playerSpawn], by norm_num [playerSpawn]⟩,
      c1_take_damage_clamping.2.2.1 playerSpawn 30 (by norm_num [playerSpawn])
        (by norm_num [playerSpawn])⟩,
    hmem, by norm_num [basicEnemySpawn],
    c1_take_damage_clamping.2.2.2.1 basicEnemySpawn [(25:ℚ), 10] hmem
      (by norm_num [basicEnemySpawn])⟩

/-- Counterexample to C1 as stated: a basic enemy with 30 health hit once for
40 ends at health −10, not `max 0 (30 − 40) = 0` — enemy damage is not
clamped at zero from below. -/
theorem c1_counterexample :
    (enemyTakeDamage basicEnemySpawn 40).health = -10 ∧
    (enemyTakeDamage basicEnemySpawn 40).health ≠
      max 0 (basicEnemySpawn.health - 40) := by
  have h : (enemyTakeDamage basicEnemySpawn 40).health = -10 := by
    rw [enemyTakeDamage_health basicEnemySpawn 40 rfl]
    norm_num [basicEnemySpawn]
  refine ⟨h, ?_⟩
  rw [h]
  norm_num [basicEnemySpawn]

/-! ### Claim C2 -/

theorem setState_isDying (e : EnemyData) (s : EnemyState) :
    (setState e s).isDying = e.isDying := by
  unfold setState
  split <;> rfl

theorem die_state_of_live (e : EnemyData) (h : e.isDying = false) :
    (die e).state = EnemyState.DEAD := by
  unfold die
  simp [h]

theorem updateIdle_state (e : EnemyData) (d : ℚ) :
    (updateIdle e d).state = e.state ∨ (updateIdle e d).state = EnemyState.ALERT ∨
    (updateIdle e d).state = EnemyState.PATROL := by
  unfold updateIdle
  split_ifs <;> simp [setState_state]

theorem updatePatrol_state (e : EnemyData) (d : ℚ) :
    (updatePatrol e d).state = e.state ∨ (updatePatrol e d).state = EnemyState.ALERT := by
  unfold updatePatrol
  split_ifs <;> simp [setState_state]

theorem updateAlert_state (e : EnemyData) :
    (updateAlert e).state = e.state ∨ (updateAlert e).state = EnemyState.CHASE := by
  unfold updateAlert
  split_ifs <;> simp [setState_state]

theorem updateChase_state (e : EnemyData) (d : ℚ) :
    (updateChase e d).state = e.state ∨ (updateChase e d).state = EnemyState.ATTACK ∨
    (updateChase e d).state = EnemyState.PATROL := by
  unfold updateChase
  split_ifs <;> simp [setState_state]

theorem updateAttack_state (e : EnemyData) (d : ℚ) :
    (updateAttack e d).state = e.state ∨ (updateAttack e d).state = EnemyState.CHASE := by
  unfold updateAttack
  split_ifs <;> simp [setState_state]

/-- Characterization of the state after a hit on a live enemy: dead when the
new health is at or below zero, otherwise `CHASE` from `IDLE`/`PATROL`, and
unchanged from every other state. -/
theorem enemyTakeDamage_state_eq (e : EnemyData) (a : ℚ) (h : e.isDying = false) :
    (enemyTakeDamage e a).state =
      if e.health - a ≤ 0 then EnemyState.DEAD
      else if e.state = EnemyState.IDLE ∨ e.state = EnemyState.PATROL then EnemyState.CHASE
      else e.state := by
  have hne : ¬(e.isDying = true) := by simp [h]
  unfold enemyTakeDamage
  rw [if_neg hne]
  dsimp only
  by_cases hip : e.state = EnemyState.IDLE ∨ e.state = EnemyState.PATROL
  · rw [if_pos hip, setState_health]
    by_cases hh : e.health - a ≤ 0
    · rw [if_pos hh, if_pos hh, die_state_of_live]
      rw [setState_isDying]
      exact h
    · rw [if_neg hh, if_neg hh, if_pos hip, setState_state]
  · rw [if_neg hip]
    by_cases hh : e.health - a ≤ 0
    · rw [if_pos hh, if_pos hh]
      exact die_state_of_live _ h
    · rw [if_neg hh, if_neg hh, if_neg hip]

/-- C2, corrected.  Per-tick updates move the state only along §4.1 edges or
leave it unchanged; but `Enemy.takeDamage` additionally jumps straight to
`CHASE` from `IDLE` or `PATROL` when a hit lands on a live enemy, so the code's
transition set is the §4.1 edges plus `IDLE→CHASE` and `PATROL→CHASE`. -/
theorem c2_transition_edges :
    (∀ (e : EnemyData) (delta distance : ℚ),
        (enemyUpdate e delta distance).state = e.state ∨
        specTransitionEdge e.state (enemyUpdate e delta distance).state = true)
  ∧ (∀ (e : EnemyData) (a : ℚ),
        (enemyTakeDamage e a).state = e.state ∨
        codeTransitionEdge e.state (enemyTakeDamage e a).state = true) := by
  constructor
  · intro e delta distance
    by_cases hd : e.isDying
    · left
      simp [enemyUpdate, hd]
    · have hne : ¬(e.isDying = true) := hd
      have hrw : e.state = (tickTimers e delta).state := rfl
      rw [hrw]
      unfold enemyUpdate
      rw [if_neg hne]
      dsimp only
      cases hx : (tickTimers e delta).state
      · rcases updateIdle_state (tickTimers e delta) distance with h1 | h1 | h1 <;>
          rw [h1] <;> simp [hx, specTransitionEdge]
      · rcases updatePatrol_state (tickTimers e delta) distance with h1 | h1 <;>
          rw [h1] <;> simp [hx, specTransitionEdge]
      · rcases updateAlert_state (tickTimers e delta) with h1 | h1 <;>
          rw [h1] <;> simp [hx, specTransitionEdge]
      · rcases updateChase_state (tickTimers e delta) distance with h1 | h1 | h1 <;>
          rw [h1] <;> simp [hx, specTransitionEdge]
      · rcases updateAttack_state (tickTimers e delta) distance with h1 | h1 <;>
          rw [h1] <;> simp [hx, specTransitionEdge]
      · left
        exact hx
  · intro e a
    by_cases hd : e.isDying
    · left
      rw [enemyTakeDamage_of_dying e a hd]
    · have h : e.isDying = false := by simpa using hd
      rw [enemyTakeDamage_state_eq e a h]
      split_ifs with h1 h2
      · cases hs : e.state <;> simp [codeTransitionEdge, specTransitionEdge]
      · rcases h2 with h2 | h2 <;> rw [h2] <;> right <;> rfl
      · left
        rfl

/-- Counterexample to C2 as stated: a live idle enemy hit for 10 moves
directly from `IDLE` to `CHASE`, an edge absent from the §4.1 transition
list. -/
theorem c2_counterexample :
    basicEnemySpawn.state = EnemyState.IDLE ∧
    (enemyTakeDamage basicEnemySpawn 10).state = EnemyState.CHASE ∧
    specTransitionEdge EnemyState.IDLE EnemyState.CHASE = false := by
  refine ⟨rfl, ?_, rfl⟩
  rw [enemyTakeDamage_state_eq basicEnemySpawn 10 rfl]
  norm_num [basicEnemySpawn]

/-! ### Claims C3, C4 and C9: the weapon system -/

/-- The rifle slot as initialised by `initWeapons` from
`GAME_CONSTANTS.WEAPONS.RIFLE` (types/index.ts lines 218-230). -/
def rifleSlot : WeaponSlot :=
  { damage := 25, fireRate := 1/10, magazineSize := 30, currentAmmo := 30,
    reserveAmmo := 120, maxReserveAmmo := 120, reloadTime := 2,
    infiniteAmmo := false, isTemporary := false, isKnife := false }

/-- The knife slot (`GAME_CONSTANTS.WEAPONS.KNIFE`); its magazine and reserve
are `Infinity` in the source and are never read by any modelled operation, so
they are represented by the unused value `0` here. -/
def knifeSlot : WeaponSlot :=
  { damage := 50, fireRate := 1/2, magazineSize := 0, currentAmmo := 0,
    reserveAmmo := 0, maxReserveAmmo := 0, reloadTime := 0,
    infiniteAmmo := true, isTemporary := false, isKnife := true }

/-- A weapon system at rest holding the (full) rifle. -/
def rifleSys : WeaponSys :=
  { weapon := rifleSlot, fireTimer := 0, isReloading := false, reloadTimer := 0,
    isKnifeSwinging := false, knifeSwingTimer := 0, isAiming := false,
    aimTransition := 0, isZombieMode := false }

theorem reload_weapon (s : WeaponSys) : (reload s).weapon = s.weapon := by
  unfold reload
  split_ifs <;> rfl

theorem knifeAttack_weapon (s : WeaponSys) : (knifeAttack s).weapon = s.weapon := by
  unfold knifeAttack
  split_ifs <;> rfl

/-- Each C3 operation keeps `currentAmmo ≤ magazineSize`. -/
theorem applyWeaponOp_mag_inv (s : WeaponSys) (op : WeaponOp)
    (h : s.weapon.currentAmmo ≤ s.weapon.magazineSize) :
    (applyWeaponOp s op).weapon.currentAmmo ≤ (applyWeaponOp s op).weapon.magazineSize := by
  cases op with
  | shootOp =>
    show (shoot s).weapon.currentAmmo ≤ (shoot s).weapon.magazineSize
    unfold shoot
    split_ifs
    · exact h
    · exact h
    · exact h
    · rw [knifeAttack_weapon]
      exact h
    · rw [reload_weapon]
      exact h
    · dsimp only
      omega
  | reloadOp =>
    show (reload s).weapon.currentAmmo ≤ (reload s).weapon.magazineSize
    rw [reload_weapon]
    exact h
  | completeReloadOp =>
    show (completeReload s).weapon.currentAmmo ≤ (completeReload s).weapon.magazineSize
    unfold completeReload
    dsimp only
    split_ifs
    · dsimp only
      omega
    · dsimp only
      omega
  | addAmmoOp n =>
    show (addAmmo s n).weapon.currentAmmo ≤ (addAmmo s n).weapon.magazineSize
    unfold addAmmo
    split_ifs
    · exact h
    · exact h
    · dsimp only
      exact h

theorem weapon_fold_mag_inv (ops : List WeaponOp) (s : WeaponSys)
    (h : s.weapon.currentAmmo ≤ s.weapon.magazineSize) :
    (ops.foldl applyWeaponOp s).weapon.currentAmmo ≤
      (ops.foldl applyWeaponOp s).weapon.magazineSize := by
  induction ops generalizing s with
  | nil => exact h
  | cons op ops ih =>
    rw [List.foldl_cons]
    exact ih (applyWeaponOp s op) (applyWeaponOp_mag_inv s op h)

/-- C3, confirmed.  Starting from a valid slot, every sequence of `shoot`,
`reload`, reload completion and `addAmmo` operations keeps
`currentAmmo ≤ magazineSize`; and `reload()` with a full magazine is a
no-op — the whole weapon-system state, ammo counts and reload timer included,
is returned unchanged. -/
theorem c3_magazine_invariant :
    (∀ (s : WeaponSys) (ops : List WeaponOp),
        s.weapon.currentAmmo ≤ s.weapon.magazineSize →
        (ops.foldl applyWeaponOp s).weapon.currentAmmo ≤
          (ops.foldl applyWeaponOp s).weapon.magazineSize)
  ∧ (∀ s : WeaponSys, s.weapon.currentAmmo = s.weapon.magazineSize → reload s = s) := by
  constructor
  · intro s ops h
    exact weapon_fold_mag_inv ops s h
  · intro s h
    unfold reload
    split_ifs <;> rfl

/-- Witness for C3: the full rifle put through shoot, reload, complete-reload
and add-ammo operations, and a full-magazine reload no-op. -/
theorem c3_magazine_invariant_witness :
    (rifleSys.weapon.currentAmmo ≤ rifleSys.weapon.magazineSize ∧
      (([WeaponOp.shootOp, WeaponOp.reloadOp, WeaponOp.completeReloadOp,
          WeaponOp.addAmmoOp 15].foldl applyWeaponOp rifleSys).weapon.currentAmmo ≤
        ([WeaponOp.shootOp, WeaponOp.reloadOp, WeaponOp.completeReloadOp,
          WeaponOp.addAmmoOp 15].foldl applyWeaponOp rifleSys).weapon.magazineSize)) ∧
    (rifleSys.weapon.currentAmmo = rifleSys.weapon.magazineSize ∧
      reload rifleSys = rifleSys) :=
  ⟨⟨by norm_num [rifleSys, rifleSlot],
    c3_magazine_invariant.1 rifleSys
      [WeaponOp.shootOp, WeaponOp.reloadOp, WeaponOp.completeReloadOp,
        WeaponOp.addAmmoOp 15] (by norm_num [rifleSys, rifleSlot])⟩,
   rfl, c3_magazine_invariant.2 rifleSys rfl⟩

/-- C4, corrected.  With the cooldown expired and no reload or melee swing in
progress, shooting a non-melee weapon on an empty magazine never decrements
`currentAmmo`, and it starts a reload exactly when a reload can start: the
magazine is not trivially full (`magazineSize > 0`) and reserve ammo is
available (`infiniteAmmo` or `reserveAmmo > 0`).  With an empty reserve on a
finite-ammo weapon no reload starts, contrary to the claim's "always". -/
theorem c4_empty_shoot_amended :
    ∀ s : WeaponSys,
      s.weapon.isKnife = false →
      s.fireTimer ≤ 0 →
      s.isReloading = false →
      s.isKnifeSwinging = false →
      s.weapon.currentAmmo = 0 →
      (shoot s).weapon.currentAmmo = 0 ∧
      ((shoot s).isReloading = true ↔
        0 < s.weapon.magazineSize ∧
          (s.weapon.infiniteAmmo = true ∨ 0 < s.weapon.reserveAmmo)) := by
  intro s hk hf hr hks hc
  have h1 : ¬ 0 < s.fireTimer := not_lt.mpr hf
  have hshoot : shoot s = reload s := by
    unfold shoot
    rw [if_neg h1, if_neg (by simp [hr]), if_neg (by simp [hks]),
      if_neg (by simp [hk]), if_pos hc]
  rw [hshoot]
  refine ⟨by rw [reload_weapon]; exact hc, ?_⟩
  unfold reload
  rw [if_neg (by simp [hr]), if_neg (by simp [hk])]
  by_cases hm : s.weapon.currentAmmo = s.weapon.magazineSize
  · rw [if_pos hm]
    have hmag : s.weapon.magazineSize = 0 := by omega
    simp [hr, hmag]
  · rw [if_neg hm]
    by_cases hres : ¬s.weapon.infiniteAmmo ∧ s.weapon.reserveAmmo = 0
    · rw [if_pos hres]
      have : ¬(s.weapon.infiniteAmmo = true ∨ 0 < s.weapon.reserveAmmo) := by
        rcases hres with ⟨hi, hz⟩
        simp [hi, hz]
      simp [hr, this]
    · rw [if_neg hres]
      have hmag : 0 < s.weapon.magazineSize := by omega
      have : s.weapon.infiniteAmmo = true ∨ 0 < s.weapon.reserveAmmo := by
        by_cases hi : s.weapon.infiniteAmmo
        · exact Or.inl hi
        · right
          rcases Nat.eq_zero_or_pos s.weapon.reserveAmmo with hz | hz
          · exact absurd ⟨hi, hz⟩ hres
          · exact hz
      simp [hmag, this]

/-- An empty rifle magazine with reserve ammo available. -/
def emptyRifleSys : WeaponSys :=
  { rifleSys with weapon := { rifleSlot with currentAmmo := 0 } }

/-- An empty rifle magazine with the reserve also exhausted. -/
def drainedRifleSys : WeaponSys :=
  { rifleSys with weapon := { rifleSlot with currentAmmo := 0, reserveAmmo := 0 } }

/-- Witness for C4: shooting the empty rifle (reserve available) keeps the
magazine at zero and starts a reload. -/
theorem c4_empty_shoot_amended_witness :
    (emptyRifleSys.weapon.isKnife = false ∧ emptyRifleSys.fireTimer ≤ 0 ∧
      emptyRifleSys.isReloading = false ∧ emptyRifleSys.isKnifeSwinging = false ∧
      emptyRifleSys.weapon.currentAmmo = 0) ∧
    (shoot emptyRifleSys).weapon.currentAmmo = 0 ∧
    ((shoot emptyRifleSys).isReloading = true ↔
      0 < emptyRifleSys.weapon.magazineSize ∧
        (emptyRifleSys.weapon.infiniteAmmo = true ∨
          0 < emptyRifleSys.weapon.reserveAmmo)) :=
  ⟨⟨rfl, le_refl 0, rfl, rfl, rfl⟩,
    c4_empty_shoot_amended emptyRifleSys rfl (le_refl 0) rfl rfl rfl⟩

/-- Counterexample to C4 as stated: shooting the empty rifle whose reserve is
also empty does not start a reload, although none is in progress. -/
theorem c4_counterexample :
    drainedRifleSys.isReloading = false ∧
    drainedRifleSys.weapon.isKnife = false ∧
    drainedRifleSys.fireTimer ≤ 0 ∧
    drainedRifleSys.weapon.currentAmmo = 0 ∧
    (shoot drainedRifleSys).isReloading = false := by
  refine ⟨rfl, rfl, le_refl 0, rfl, ?_⟩
  norm_num [shoot, reload, drainedRifleSys, rifleSys, rifleSlot]

/-- C9, corrected.  `equipWeapon` clears the reload flag, zeroes the reload
timer and resets aiming, but it leaves the fire timer and the knife-swing
state untouched: an in-progress melee swing is not cancelled and the
fire-rate cooldown does carry over to the newly equipped weapon. -/
theorem c9_weapon_switch :
    ∀ (s : WeaponSys) (w : WeaponSlot),
      (equipWeapon s w).isReloading = false ∧
      (equipWeapon s w).reloadTimer = 0 ∧
      (equipWeapon s w).isAiming = false ∧
      (equipWeapon s w).aimTransition = 0 ∧
      (equipWeapon s w).fireTimer = s.fireTimer ∧
      (equipWeapon s w).isKnifeSwinging = s.isKnifeSwinging ∧
      (equipWeapon s w).knifeSwingTimer = s.knifeSwingTimer ∧
      (equipWeapon s w).weapon = w :=
  fun _ _ => ⟨rfl, rfl, rfl, rfl, rfl, rfl, rfl, rfl⟩

/-- A weapon system mid knife swing with the fire cooldown still running. -/
def midSwingSys : WeaponSys :=
  { weapon := knifeSlot, fireTimer := 1/4, isReloading := false, reloadTimer := 0,
    isKnifeSwinging := true, knifeSwingTimer := 1/5, isAiming := false,
    aimTransition := 0, isZombieMode := false }

/-- Counterexample to C9 as stated: switching from the mid-swing knife to the
rifle leaves the swing state set and keeps the quarter-second fire cooldown,
so the swing is not cancelled and the cooldown carries over. -/
theorem c9_counterexample :
    midSwingSys.isKnifeSwinging = true ∧
    (equipWeapon midSwingSys rifleSlot).isKnifeSwinging = true ∧
    (equipWeapon midSwingSys rifleSlot).knifeSwingTimer = 1/5 ∧
    (equipWeapon midSwingSys rifleSlot).fireTimer = 1/4 ∧
    (1/4 : ℚ) ≠ 0 :=
  ⟨rfl, rfl, rfl, rfl, by norm_num⟩

/-! ### Claim C5: survival-mode population cap -/

theorem applySpawnEvent_le (count : ℕ) (ev : SpawnEvent) (h : count ≤ maxZombiesCap) :
    applySpawnEvent count ev ≤ maxZombiesCap := by
  cases ev <;>
    simp only [applySpawnEvent, staggeredWaveSpawn, spawnSingleZombie,
      checkZombieRespawn] <;>
    first
    | omega
    | split_ifs <;> omega

/-- C5, confirmed.  No interleaving of staggered wave spawns, trickle
respawns and removals pushes the live count above the hard cap of 10; the
per-wave target is `min(hardCap, 5 + ⌊wave/2⌋)`; and the wave spawns exactly
the deficit `max(0, target − live)`. -/
theorem c5_survival_population_cap :
    (∀ (events : List SpawnEvent) (count : ℕ), count ≤ maxZombiesCap →
        events.foldl applySpawnEvent count ≤ maxZombiesCap)
  ∧ (∀ wave : ℕ, waveZombieTarget wave = min maxZombiesCap (5 + wave / 2))
  ∧ (∀ target current : ℕ,
        (zombiesToSpawn target current : ℤ) = max 0 ((target : ℤ) - current)) := by
  refine ⟨?_, fun _ => rfl, ?_⟩
  · intro events
    induction events with
    | nil => intro count h; exact h
    | cons ev events ih =>
      intro count h
      rw [List.foldl_cons]
      exact ih (applySpawnEvent count ev) (applySpawnEvent_le count ev h)
  · intro target current
    unfold zombiesToSpawn
    omega

/-- Witness for C5: from nine live zombies, a wave spawn, a trickle check and
another wave spawn after one death stay at or below the cap. -/
theorem c5_survival_population_cap_witness :
    9 ≤ maxZombiesCap ∧
    [SpawnEvent.waveSpawn, SpawnEvent.trickle, SpawnEvent.enemyRemoved,
      SpawnEvent.waveSpawn].foldl applySpawnEvent 9 ≤ maxZombiesCap :=
  ⟨by norm_num [maxZombiesCap],
    c5_survival_population_cap.1
      [SpawnEvent.waveSpawn, SpawnEvent.trickle, SpawnEvent.enemyRemoved,
        SpawnEvent.waveSpawn] 9 (by norm_num [maxZombiesCap])⟩

/-! ### Claim C6: explosion damage falloff -/

/-- C6, corrected.  Within the blast radius the applied damage is the floored
product `⌊maxDamage * (1 − d/r)⌋` (clamped at zero), not the exact linear
value; the spec's concrete scenario (radius 8, damage 120, distance 4 → 60)
happens to be exact, and targets at or past the radius take nothing. -/
theorem c6_explosion_falloff_amended :
    (∀ d : ℚ, 0 ≤ d → d < rocketExplosionRadius →
        explosionDamageApplied rocketExplosionRadius rocketExplosionDamage d =
          max 0 (Int.floor (rocketExplosionDamage * (1 - d / rocketExplosionRadius))))
  ∧ explosionDamageApplied rocketExplosionRadius rocketExplosionDamage 4 = 60
  ∧ (∀ d : ℚ, rocketExplosionRadius ≤ d →
        explosionDamageApplied rocketExplosionRadius rocketExplosionDamage d = 0) := by
  refine ⟨?_, ?_, ?_⟩
  · intro d h0 hlt
    unfold explosionDamageApplied
    rw [if_pos (le_of_lt hlt)]
    rcases lt_or_le 0 (Int.floor (rocketExplosionDamage *
        (1 - d / rocketExplosionRadius))) with hpos | hneg
    · rw [if_pos hpos, max_eq_right (le_of_lt hpos)]
    · rw [if_neg (not_lt.mpr hneg), max_eq_left hneg]
  · unfold explosionDamageApplied rocketExplosionRadius rocketExplosionDamage
    norm_num
  · intro d hge
    unfold explosionDamageApplied
    by_cases hle : d ≤ rocketExplosionRadius
    · have hde : d = rocketExplosionRadius := le_antisymm hle hge
      subst hde
      rw [if_pos le_rfl]
      norm_num [rocketExplosionRadius, rocketExplosionDamage]
    · rw [if_neg hle]

/-- Witness for C6 at concrete distances 2 (inside) and 9 (outside). -/
theorem c6_explosion_falloff_witness :
    ((0:ℚ) ≤ 2 ∧ (2:ℚ) < rocketExplosionRadius ∧
      explosionDamageApplied rocketExplosionRadius rocketExplosionDamage 2 =
        max 0 (Int.floor (rocketExplosionDamage * (1 - 2 / rocketExplosionRadius)))) ∧
    (rocketExplosionRadius ≤ (9:ℚ) ∧
      explosionDamageApplied rocketExplosionRadius rocketExplosionDamage 9 = 0) :=
  ⟨⟨by norm_num, by norm_num [rocketExplosionRadius],
      c6_explosion_falloff_amended.1 2 (by norm_num) (by norm_num [rocketExplosionRadius])⟩,
    ⟨by norm_num [rocketExplosionRadius],
      c6_explosion_falloff_amended.2.2 9 (by norm_num [rocketExplosionRadius])⟩⟩

/-- Counterexample to C6 as stated: at distance ½ inside radius 8 the code
deals `⌊120 · (1 − 1/16)⌋ = 112`, not the exact linear value 112.5. -/
theorem c6_counterexample :
    explosionDamageApplied rocketExplosionRadius rocketExplosionDamage (1/2) = 112 ∧
    ((112 : ℚ) ≠
      rocketExplosionDamage * (1 - (1/2) / rocketExplosionRadius)) := by
  constructor
  · unfold explosionDamageApplied rocketExplosionRadius rocketExplosionDamage
    norm_num
  · norm_num [rocketExplosionRadius, rocketExplosionDamage]

/-! ### Claim C7: boss phase machine -/

theorem startPhaseTransition_phase (b : BossData) (n : ℕ) :
    (startPhaseTransition b n).phase = n := by
  unfold startPhaseTransition
  split_ifs <;> rfl

theorem startPhaseTransition_transitioning (b : BossData) (n : ℕ) :
    (startPhaseTransition b n).phaseTransitioning = true := by
  unfold startPhaseTransition
  split_ifs <;> rfl

theorem startPhaseTransition_health (b : BossData) (n : ℕ) :
    (startPhaseTransition b n).health = b.health := by
  unfold startPhaseTransition
  split_ifs <;> rfl

theorem startPhaseTransition_maxHealth (b : BossData) (n : ℕ) :
    (startPhaseTransition b n).maxHealth = b.maxHealth := by
  unfold startPhaseTransition
  split_ifs <;> rfl

/-- C7, confirmed.  A phase-1 boss in the 33–66% health band escalates to
phase 2 with the transition lock armed; at or below 33% any non-phase-3 boss
escalates to phase 3; the phase check is idempotent at unchanged health, so
repeated ticks at the same percentage cannot re-trigger a transition; and
the locked transition window itself never changes the phase. -/
theorem c7_boss_phase_transitions :
    (∀ b : BossData, b.phase = 1 → 33/100 < b.health / b.maxHealth →
        b.health / b.maxHealth ≤ 66/100 →
        (checkPhaseChange b).phase = 2 ∧
        (checkPhaseChange b).phaseTransitioning = true)
  ∧ (∀ b : BossData, b.phase ≠ 3 → b.health / b.maxHealth ≤ 33/100 →
        (checkPhaseChange b).phase = 3 ∧
        (checkPhaseChange b).phaseTransitioning = true)
  ∧ (∀ b : BossData, checkPhaseChange (checkPhaseChange b) = checkPhaseChange b)
  ∧ (∀ (b : BossData) (delta : ℚ), b.phaseTransitioning = true →
        (bossUpdatePhase b delta).phase = b.phase) := by
  refine ⟨?_, ?_, ?_, ?_⟩
  · intro b h1 hlow hhigh
    unfold checkPhaseChange
    rw [if_neg (by rintro ⟨hc, -⟩; linarith), if_pos ⟨hhigh, h1⟩]
    exact ⟨startPhaseTransition_phase b 2, startPhaseTransition_transitioning b 2⟩
  · intro b h3 hle
    unfold checkPhaseChange
    rw [if_pos ⟨hle, h3⟩]
    exact ⟨startPhaseTransition_phase b 3, startPhaseTransition_transitioning b 3⟩
  · intro b
    by_cases hc1 : b.health / b.maxHealth ≤ 33/100 ∧ b.phase ≠ 3
    · have hstep : checkPhaseChange b = startPhaseTransition b 3 := by
        unfold checkPhaseChange
        rw [if_pos hc1]
      have hn1 : ¬((startPhaseTransition b 3).health /
          (startPhaseTransition b 3).maxHealth ≤ 33/100 ∧
          (startPhaseTransition b 3).phase ≠ 3) := by
        rintro ⟨-, hne⟩
        exact hne (startPhaseTransition_phase b 3)
      have hn2 : ¬((startPhaseTransition b 3).health /
          (startPhaseTransition b 3).maxHealth ≤ 66/100 ∧
          (startPhaseTransition b 3).phase = 1) := by
        rintro ⟨-, heq⟩
        rw [startPhaseTransition_phase b 3] at heq
        norm_num at heq
      rw [hstep]
      unfold checkPhaseChange
      rw [if_neg hn1, if_neg hn2]
    · by_cases hc2 : b.health / b.maxHealth ≤ 66/100 ∧ b.phase = 1
      · have hstep : checkPhaseChange b = startPhaseTransition b 2 := by
          unfold checkPhaseChange
          rw [if_neg hc1, if_pos hc2]
        have hnl : ¬ b.health / b.maxHealth ≤ 33/100 := by
          intro hle
          exact hc1 ⟨hle, by rw [hc2.2]; norm_num⟩
        have hn1 : ¬((startPhaseTransition b 2).health /
            (startPhaseTransition b 2).maxHealth ≤ 33/100 ∧
            (startPhaseTransition b 2).phase ≠ 3) := by
          rintro ⟨hle, -⟩
          rw [startPhaseTransition_health, startPhaseTransition_maxHealth] at hle
          exact hnl hle
        have hn2 : ¬((startPhaseTransition b 2).health /
            (startPhaseTransition b 2).maxHealth ≤ 66/100 ∧
            (startPhaseTransition b 2).phase = 1) := by
          rintro ⟨-, heq⟩
          rw [startPhaseTransition_phase b 2] at heq
          norm_num at heq
        rw [hstep]
        unfold checkPhaseChange
        rw [if_neg hn1, if_neg hn2]
      · have hstep : checkPhaseChange b = b := by
          unfold checkPhaseChange
          rw [if_neg hc1, if_neg hc2]
        rw [hstep, hstep]
  · intro b delta h
    unfold bossUpdatePhase
    rw [if_pos h]
    unfold updatePhaseTransition
    dsimp only
    split_ifs <;> rfl

/-- The boss (200 max health) at exactly 66% health, in phase 1. -/
def bossAt66 : BossData :=
  { phase := 1, phaseTransitioning := false, phaseTransitionTimer := 0,
    health := 132, maxHealth := 200, speed := bossBaseSpeed,
    damage := bossBaseDamage, attackCooldown := bossBaseAttackCooldown,
    specialAttackCooldown := 5 }

/-- The boss down to 30% health, still in phase 1. -/
def bossAt30 : BossData :=
  { phase := 1, phaseTransitioning := false, phaseTransitionTimer := 0,
    health := 60, maxHealth := 200, speed := bossBaseSpeed,
    damage := bossBaseDamage, attackCooldown := bossBaseAttackCooldown,
    specialAttackCooldown := 5 }

/-- Witness for C7: at exactly 66% of 200 max health (132) the phase-1 boss
enters phase 2; at 30% a phase-1 boss jumps straight to phase 3; the locked
transition window preserves the phase. -/
theorem c7_boss_phase_transitions_witness :
    ((bossAt66.phase = 1 ∧ 33/100 < bossAt66.health / bossAt66.maxHealth ∧
        bossAt66.health / bossAt66.maxHealth ≤ 66/100) ∧
      (checkPhaseChange bossAt66).phase = 2 ∧
      (checkPhaseChange bossAt66).phaseTransitioning = true) ∧
    ((bossAt30.phase ≠ 3 ∧ bossAt30.health / bossAt30.maxHealth ≤ 33/100) ∧
      (checkPhaseChange bossAt30).phase = 3 ∧
      (checkPhaseChange bossAt30).phaseTransitioning = true) ∧
    ((checkPhaseChange bossAt66).phaseTransitioning = true ∧
      (bossUpdatePhase (checkPhaseChange bossAt66) 1).phase =
        (checkPhaseChange bossAt66).phase) :=
  ⟨⟨⟨rfl, by norm_num [bossAt66], by norm_num [bossAt66]⟩,
      c7_boss_phase_transitions.1 bossAt66 rfl (by norm_num [bossAt66])
        (by norm_num [bossAt66])⟩,
    ⟨⟨by norm_num [bossAt30], by norm_num [bossAt30]⟩,
      c7_boss_phase_transitions.2.1 bossAt30 (by norm_num [bossAt30])
        (by norm_num [bossAt30])⟩,
    ⟨(c7_boss_phase_transitions.1 bossAt66 rfl (by norm_num [bossAt66])
        (by norm_num [bossAt66])).2,
      c7_boss_phase_transitions.2.2.2 (checkPhaseChange bossAt66) 1
        (c7_boss_phase_transitions.1 bossAt66 rfl (by norm_num [bossAt66])
          (by norm_num [bossAt66])).2⟩⟩

/-! ### Claim C8: survival scaling multipliers -/

/-- C8, corrected.  The three multipliers follow the claimed formulas and are
monotone — health and damage unbounded, speed capped at 2× — but only the
speed multiplier reaches a spawned zombie: the `ZombieEnemy` constructor takes
just `speedMultiplier`, so spawned health and damage stay at the base
values. -/
theorem c8_scaling_multipliers :
    (∀ v w : ℕ, 1 ≤ v → v ≤ w →
        healthMultiplier v ≤ healthMultiplier w ∧
        damageMultiplier v ≤ damageMultiplier w ∧
        speedMultiplier v ≤ speedMultiplier w)
  ∧ (∀ w : ℕ, speedMultiplier w ≤ 2)
  ∧ (∀ w : ℕ,
        (spawnedZombieStats w).speed = zombieBaseSpeed * speedMultiplier w ∧
        (spawnedZombieStats w).health = zombieBaseHealth ∧
        (spawnedZombieStats w).damage = zombieBaseDamage) := by
  refine ⟨?_, ?_, fun _ => ⟨rfl, rfl, rfl⟩⟩
  · intro v w _ hvw
    have hc : (v:ℚ) ≤ (w:ℚ) := by exact_mod_cast hvw
    refine ⟨?_, ?_, ?_⟩
    · unfold healthMultiplier
      linarith
    · unfold damageMultiplier
      linarith
    · unfold speedMultiplier
      have := min_le_min (le_refl (1:ℚ))
        (show ((v:ℚ) - 1) * (8/100) ≤ ((w:ℚ) - 1) * (8/100) by linarith)
      linarith
  · intro w
    unfold speedMultiplier
    have := min_le_left (1:ℚ) (((w:ℚ) - 1) * (8/100))
    linarith

/-- Witness for C8: waves 3 and 7 exercise the monotone conjunct; wave 20 the
speed cap; wave 5 the per-stat equations. -/
theorem c8_scaling_multipliers_witness :
    ((1 ≤ 3 ∧ 3 ≤ 7) ∧
      healthMultiplier 3 ≤ healthMultiplier 7 ∧
      damageMultiplier 3 ≤ damageMultiplier 7 ∧
      speedMultiplier 3 ≤ speedMultiplier 7) ∧
    speedMultiplier 20 ≤ 2 ∧
    ((spawnedZombieStats 5).speed = zombieBaseSpeed * speedMultiplier 5 ∧
      (spawnedZombieStats 5).health = zombieBaseHealth ∧
      (spawnedZombieStats 5).damage = zombieBaseDamage) :=
  ⟨⟨⟨by norm_num, by norm_num⟩,
      c8_scaling_multipliers.1 3 7 (by norm_num) (by norm_num)⟩,
    c8_scaling_multipliers.2.1 20,
    c8_scaling_multipliers.2.2 5⟩

/-- Counterexample to C8 as stated: at wave 11 the health multiplier is 2,
but the spawned zombie's health is the base 40, not 80 — the health (and
damage) multipliers are computed and never applied. -/
theorem c8_counterexample :
    healthMultiplier 11 = 2 ∧
    (spawnedZombieStats 11).health = 40 ∧
    (spawnedZombieStats 11).health ≠ zombieBaseHealth * healthMultiplier 11 := by
  refine ⟨?_, rfl, ?_⟩ <;>
    norm_num [healthMultiplier, spawnedZombieStats, zombieBaseHealth]

/-! ### Claim C10: player invincibility window -/

theorem playerTakeDamage_of_invincible (p : PlayerData) (a : ℚ)
    (h : 0 < p.invincibilityTimer) : playerTakeDamage p a = p := by
  unfold playerTakeDamage
  rw [if_pos h]

theorem playerTakeDamage_of_dead (p : PlayerData) (a : ℚ)
    (h : p.health ≤ 0) : playerTakeDamage p a = p := by
  unfold playerTakeDamage
  split_ifs <;> rfl

theorem playerTakeDamage_effective (p : PlayerData) (a : ℚ)
    (h1 : p.invincibilityTimer ≤ 0) (h2 : 0 < p.health) :
    (playerTakeDamage p a).invincibilityTimer = invincibilityDuration ∧
    (playerTakeDamage p a).health = max 0 (p.health - a) := by
  unfold playerTakeDamage
  rw [if_neg (not_lt.mpr h1), if_neg (not_le.mpr h2)]
  exact ⟨rfl, rfl⟩

/-- C10, confirmed.  `Player.takeDamage` is a no-op while the invincibility
timer runs and whenever health is already zero (or below); an effective hit
arms the half-second window and clamps health; and a second hit within less
than half a second of game time after an effective hit changes nothing, so
back-to-back attacks apply only the first one's damage. -/
theorem c10_invincibility_window :
    (∀ (p : PlayerData) (a : ℚ), 0 < p.invincibilityTimer →
        playerTakeDamage p a = p)
  ∧ (∀ (p : PlayerData) (a : ℚ), p.health ≤ 0 → playerTakeDamage p a = p)
  ∧ (∀ (p : PlayerData) (a : ℚ), p.invincibilityTimer ≤ 0 → 0 < p.health →
        (playerTakeDamage p a).invincibilityTimer = invincibilityDuration ∧
        (playerTakeDamage p a).health = max 0 (p.health - a))
  ∧ (∀ (p : PlayerData) (a b delta : ℚ), p.invincibilityTimer ≤ 0 →
        0 < p.health → 0 ≤ delta → delta < invincibilityDuration →
        playerTakeDamage (playerUpdateInvincibility (playerTakeDamage p a) delta) b =
          playerUpdateInvincibility (playerTakeDamage p a) delta) := by
  refine ⟨playerTakeDamage_of_invincible, playerTakeDamage_of_dead,
    playerTakeDamage_effective, ?_⟩
  intro p a b delta h1 h2 hd1 hd2
  have ht := (playerTakeDamage_effective p a h1 h2).1
  have htpos : 0 < (playerTakeDamage p a).invincibilityTimer := by
    rw [ht]
    norm_num [invincibilityDuration]
  have hupd : (playerUpdateInvincibility (playerTakeDamage p a) delta).invincibilityTimer =
      invincibilityDuration - delta := by
    unfold playerUpdateInvincibility
    rw [if_pos htpos]
    show (playerTakeDamage p a).invincibilityTimer - delta = invincibilityDuration - delta
    rw [ht]
  refine playerTakeDamage_of_invincible _ b ?_
  rw [hupd]
  linarith

/-- Witness for C10: the fresh player hit for 20, ticked a quarter second,
then hit again for 15 — the second hit is absorbed by the invincibility
window. -/
theorem c10_invincibility_window_witness :
    ((playerSpawn.invincibilityTimer ≤ 0 ∧ (0:ℚ) < playerSpawn.health) ∧
      (playerTakeDamage playerSpawn 20).invincibilityTimer = invincibilityDuration ∧
      (playerTakeDamage playerSpawn 20).health = max 0 (playerSpawn.health - 20)) ∧
    (((0:ℚ) ≤ 1/4 ∧ (1/4:ℚ) < invincibilityDuration) ∧
      playerTakeDamage (playerUpdateInvincibility (playerTakeDamage playerSpawn 20) (1/4)) 15 =
        playerUpdateInvincibility (playerTakeDamage playerSpawn 20) (1/4)) :=
  ⟨⟨⟨by norm_num [playerSpawn], by norm_num [playerSpawn]⟩,
      c10_invincibility_window.2.2.1 playerSpawn 20 (by norm_num [playerSpawn])
        (by norm_num [playerSpawn])⟩,
    ⟨⟨by norm_num, by norm_num [invincibilityDuration]⟩,
      c10_invincibility_window.2.2.2 playerSpawn 20 15 (1/4)
        (by norm_num [playerSpawn]) (by norm_num [playerSpawn]) (by norm_num)
        (by norm_num [invincibilityDuration])⟩⟩

end FPS
